import Mathlib

/-!
Verification of the batch deduplication / normalization / cache-aside
analytics pipeline of the traffic-incident processor
(`Tarea 2/processor/processor.py`).

Shallow embedding conventions:
* a Python dict-shaped raw incident becomes a structure of `Option` fields
  (`none` models a missing key or an empty/`None`-valued one: the source only
  distinguishes them through truthiness tests, which identify the two);
* floating point coordinates are modelled as exact rationals;
* timestamps are modelled as parsed epoch seconds: the field
  `timestamp : Option (Option Int)` is `none` when the key is missing/empty,
  `some none` when present but not parseable as a point in time
  (`datetime.fromisoformat` raises), and `some (some t)` when it denotes the
  instant `t`; `datetime.now()` becomes an explicit `now : Int` parameter;
* Python `//` on integers is `Int.fdiv` (floor division), and
  `timedelta.days` of a difference of `d` seconds is `d.fdiv 86400`;
* `str.strip()` / `str.lower()` are `pyStrip` / `pyLower` below
  (`Char.toLower` only lowers ASCII letters; the mapping-table keys involved
  in the claims are ASCII, so this does not affect any statement proved here).
-/

namespace Traffic

/-- A raw incident row, as fetched from the `traffic_incidents` table.
Mirrors the dict shape consumed by `TrafficDataProcessor`. -/
structure Incident where
  incident_id : Option String
  incident_type : Option String
  description : Option String
  latitude : Option ℚ
  longitude : Option ℚ
  street : Option String
  city : Option String
  comuna : Option String
  severity : Option ℤ
  timestamp : Option (Option ℤ)
  source : Option String
deriving DecidableEq

/-- The normalized record built by `homogenize_incidents` (lines 221-233). -/
structure CanonicalIncident where
  incident_id : String
  incident_type : String
  description : String
  latitude : ℚ
  longitude : ℚ
  street : String
  city : String
  comuna : String
  severity : ℤ
  timestamp : Option ℤ
  source : String
deriving DecidableEq

/-- Python `str.strip()`: drop whitespace from both ends. -/
def pyStrip (s : String) : String :=
  ⟨((s.toList.dropWhile Char.isWhitespace).reverse.dropWhile Char.isWhitespace).reverse⟩

/-- Python `str.lower()` (ASCII letters). -/
def pyLower (s : String) : String :=
  ⟨s.toList.map Char.toLower⟩

/-- Truthiness of a string-valued dict entry: `not incident.get(k)` is `True`
exactly when the key is missing, `None`, or the empty string. -/
def truthyStr : Option String → Bool
  | none => false
  | some s => decide (s ≠ "")

/-- Truthiness of a numeric dict entry: `0.0` is falsy in Python. -/
def truthyNum : Option ℚ → Bool
  | none => false
  | some q => decide (q ≠ 0)

/-- Truthiness of the timestamp entry: a datetime object or a non-empty
string is truthy; a missing key or empty string is falsy. -/
def truthyTs : Option (Option ℤ) → Bool
  | none => false
  | some _ => true

/-- The bounding-box test of `is_valid_incident` (line 112):
`-33.8 <= lat <= -33.2 and -71.0 <= lon <= -70.3`. -/
def bbox_check (la lo : ℚ) : Bool :=
  decide (-33.8 ≤ la) && decide (la ≤ -33.2) && decide (-71.0 ≤ lo) && decide (lo ≤ -70.3)

/-- The freshness test of `is_valid_incident` (lines 119-128): parse the
timestamp (fail closed on a malformed one) and reject when
`(now - timestamp).days > 7`.  `timedelta.days` floors, so this keeps any
record strictly younger than 8 whole days. -/
def freshness_check (now : ℤ) : Option (Option ℤ) → Bool
  | some (some t) => decide ((now - t).fdiv 86400 ≤ 7)
  | _ => false

/-- `TrafficDataProcessor.is_valid_incident` (lines 105-130), with
`datetime.now()` passed explicitly as `now`. -/
def is_valid_incident (now : ℤ) (incident : Incident) : Bool :=
  truthyStr incident.incident_id &&
  truthyStr incident.incident_type &&
  truthyNum incident.latitude &&
  truthyNum incident.longitude &&
  truthyTs incident.timestamp &&
  bbox_check (incident.latitude.getD 0) (incident.longitude.getD 0) &&
  decide (3 ≤ (pyStrip (incident.description.getD "")).length) &&
  freshness_check now incident.timestamp

/-- `self.duplicate_distance_threshold = 0.001` (line 43). -/
def duplicate_distance_threshold : ℚ := 0.001

/-- `self.duplicate_time_threshold = 300` (line 44). -/
def duplicate_time_threshold : ℤ := 300

/-- `TrafficDataProcessor.are_incidents_duplicate` (lines 152-177).  The
function is only applied to records that passed validation, whose accessed
fields are present; `getD` supplies an arbitrary default on the unreachable
missing-field paths.  A timestamp that fails to parse hits the bare
`except: return False`. -/
def are_incidents_duplicate (inc1 inc2 : Incident) : Bool :=
  if inc1.incident_type ≠ inc2.incident_type then false
  else
    let lat_diff := |inc1.latitude.getD 0 - inc2.latitude.getD 0|
    let lon_diff := |inc1.longitude.getD 0 - inc2.longitude.getD 0|
    if lat_diff > duplicate_distance_threshold ∨ lon_diff > duplicate_distance_threshold then false
    else
      match inc1.timestamp, inc2.timestamp with
      | some (some t1), some (some t2) => decide (|t1 - t2| ≤ duplicate_time_threshold)
      | _, _ => false

/-- Sort key of `sorted(incidents, key=lambda x: x['timestamp'])` (line 136),
on the parsed-epoch model of timestamps. -/
def tsKey (i : Incident) : ℤ := (i.timestamp.getD none).getD 0

/-- The (non-strict) timestamp order used for sorting. -/
def tsLE (a b : Incident) : Prop := tsKey a ≤ tsKey b

instance : DecidableRel tsLE := fun a b => inferInstanceAs (Decidable (tsKey a ≤ tsKey b))

instance : IsTotal Incident tsLE := ⟨fun a b => le_total (tsKey a) (tsKey b)⟩

instance : IsTrans Incident tsLE := ⟨fun _ _ _ h₁ h₂ => le_trans h₁ h₂⟩

/-- The strict timestamp order, used to reason about batches with pairwise
distinct timestamps. -/
def tsLT (a b : Incident) : Prop := tsKey a < tsKey b

instance : IsAntisymm Incident tsLT :=
  ⟨fun _ _ h₁ h₂ => absurd (lt_trans h₁ h₂) (lt_irrefl _)⟩

/-- `sorted(incidents, key=lambda x: x['timestamp'])`: a stable sort on the
timestamp key, like Python's `sorted`. -/
def sortByTimestamp (l : List Incident) : List Incident :=
  List.insertionSort tsLE l

/-- One iteration of the accumulation loop of `remove_duplicates`
(lines 139-148): drop the record if it duplicates any already-admitted one,
otherwise append it. -/
def dedupAccStep (acc : List Incident) (incident : Incident) : List Incident :=
  if acc.any (fun existing => are_incidents_duplicate incident existing) then acc
  else acc ++ [incident]

/-- `TrafficDataProcessor.remove_duplicates` (lines 132-150). -/
def remove_duplicates (incidents : List Incident) : List Incident :=
  (sortByTimestamp incidents).foldl dedupAccStep []

/-- The `type_mapping` table (lines 182-190). -/
def type_mapping : List (String × String) :=
  [("accidente", "ACCIDENTE"), ("atasco", "ATASCO"), ("construccion", "CONSTRUCCION"),
   ("peligro", "PELIGRO"), ("clima", "CLIMA"), ("alerta", "ALERTA"), ("otro", "OTRO")]

/-- The `comuna_mapping` table (lines 192-203). -/
def comuna_mapping : List (String × String) :=
  [("santiago", "Santiago"), ("las condes", "Las Condes"), ("providencia", "Providencia"),
   ("ñuñoa", "Ñuñoa"), ("maipú", "Maipú"), ("maipu", "Maipú"), ("la florida", "La Florida"),
   ("puente alto", "Puente Alto"), ("peñalolén", "Peñalolén"), ("penalolen", "Peñalolén")]

/-- Python `dict.get(k, default)` on an association-list table. -/
def tableLookup (table : List (String × String)) (key default : String) : String :=
  match table.find? (fun kv => kv.1 == key) with
  | some kv => kv.2
  | none => default

/-- Python `round(x, 6)` idealized over rationals: round half to even at the
sixth decimal. -/
def roundHalfEven (q : ℚ) : ℤ :=
  let f := ⌊q⌋
  let r := q - f
  if r < 1/2 then f
  else if 1/2 < r then f + 1
  else if f % 2 = 0 then f else f + 1

/-- Coordinate rounding `round(_, 6)` of lines 225-226. -/
def pyRound6 (x : ℚ) : ℚ := (roundHalfEven (x * 1000000) : ℚ) / 1000000

/-- One iteration of the loop body of `homogenize_incidents` (lines 205-239).
The body indexes `incident['incident_id']`, `incident['latitude']`,
`incident['longitude']` and `incident['timestamp']` directly, so a record
missing any of those raises and is skipped by the
`except ... continue` handler: that is the `none` result. Every other field
is read with a `.get` default and cannot fail in this model. -/
def homogenize_one (incident : Incident) : Option CanonicalIncident :=
  match incident.incident_id, incident.latitude, incident.longitude, incident.timestamp with
  | some iid, some la, some lo, some ts =>
    let incident_type := pyLower (incident.incident_type.getD "")
    let standardized_type := tableLookup type_mapping incident_type "OTRO"
    let comuna := pyStrip (pyLower (incident.comuna.getD ""))
    let standardized_comuna := tableLookup comuna_mapping comuna (incident.comuna.getD "")
    let description0 := pyStrip (incident.description.getD "")
    let description := if description0 = "" then "Incidente de tipo " ++ standardized_type
                       else description0
    let severity0 := incident.severity.getD 0
    let severity := if severity0 > 10 then min (severity0.fdiv 10) 10 else severity0
    some { incident_id := iid, incident_type := standardized_type, description := description,
           latitude := pyRound6 la, longitude := pyRound6 lo,
           street := pyStrip (incident.street.getD ""), city := pyStrip (incident.city.getD ""),
           comuna := standardized_comuna, severity := severity, timestamp := ts,
           source := incident.source.getD "waze" }
  | _, _, _, _ => none

/-- `TrafficDataProcessor.homogenize_incidents` (lines 179-241): per-record
normalization, silently skipping records whose processing raises. -/
def homogenize_incidents (incidents : List Incident) : List CanonicalIncident :=
  incidents.filterMap homogenize_one

/-- `TrafficDataProcessor.filter_and_clean_data` (lines 54-103) on one fetched
batch: validate, deduplicate, homogenize, and mark processed exactly the ids
of the homogenized output (lines 88-94).  Returns
(`len(raw_incidents)`, `len(homogenized_incidents)`, ids marked processed). -/
def filter_and_clean_data (batch : List Incident) (now : ℤ) : ℕ × ℕ × List String :=
  let filtered_incidents := batch.filter (is_valid_incident now)
  let deduplicated_incidents := remove_duplicates filtered_incidents
  let homogenized_incidents := homogenize_incidents deduplicated_incidents
  (batch.length, homogenized_incidents.length, homogenized_incidents.map (·.incident_id))

/-! ### CSV export of the description field (lines 269-274)

`export_for_pig_processing` first performs
`df['description'].str.replace('"', '""')` itself, and then
`df.to_csv(...)`.  `to_csv` uses the csv module's default dialect
(QUOTE_MINIMAL with `doublequote=True`): a field containing a comma, quote or
newline is wrapped in double quotes and every quote inside it is doubled.
`csvWriteField` models that library behavior; `csvReadField` models a
standard CSV reader's treatment of one well-formed field (strip the
surrounding quotes, collapse doubled quotes). Fields are lists of
characters. -/

/-- Double every `"` character, as `str.replace('"', '""')` does. -/
def doubleQuotes : List Char → List Char
  | [] => []
  | c :: rest => if c = '"' then '"' :: '"' :: doubleQuotes rest else c :: doubleQuotes rest

/-- QUOTE_MINIMAL: quote a field iff it contains a separator, a quote or a
newline. -/
def csvNeedsQuoting (s : List Char) : Bool :=
  s.any (fun c => c = ',' || c = '"' || c = '\n')

/-- How the csv writer used by `DataFrame.to_csv` emits one field. -/
def csvWriteField (s : List Char) : List Char :=
  if csvNeedsQuoting s then '"' :: (doubleQuotes s ++ ['"']) else s

/-- The description field as the exporter writes it: the source's own
pre-doubling of quotes (line 271) followed by the csv writer's quoting. -/
def export_description_field (d : List Char) : List Char :=
  csvWriteField (doubleQuotes d)

/-- Collapse doubled quotes inside a quoted field body. -/
def csvUnescape : List Char → List Char
  | '"' :: '"' :: rest => '"' :: csvUnescape rest
  | c :: rest => c :: csvUnescape rest
  | [] => []

/-- A standard CSV reader's view of one well-formed field: if it starts with
a quote, drop the surrounding quotes and collapse doubled quotes; otherwise
take it verbatim. -/
def csvReadField (s : List Char) : List Char :=
  match s with
  | '"' :: rest => csvUnescape rest.dropLast
  | _ => s

/-! ### Export, cache and orchestrator -/

/-- `TrafficDataProcessor.export_for_pig_processing` (lines 243-283) at the
level the orchestrator observes: with a reachable store it returns `""` when
no processed rows exist (lines 261-263) and otherwise writes the artifact
and returns its path (whose time-stamped file name is abstracted to a fixed
one). -/
def export_for_pig_processing (rows : List CanonicalIncident) : String :=
  if rows.isEmpty then "" else "/app/data/processed_incidents.csv"

/-- A Redis-like cache: a list of (key, payload, expiry) entries, most
recent first.  Lookups see the most recent entry for a key. -/
structure CacheState where
  entries : List (String × String × ℤ)
deriving DecidableEq

/-- `redis.setex(key, ttl, value)` at time `now`: store the payload with
expiry `now + ttl`. -/
def redis_setex (st : CacheState) (now : ℤ) (key : String) (ttl : ℤ) (payload : String) :
    CacheState :=
  ⟨(key, payload, now + ttl) :: st.entries⟩

/-- The stored (payload, expiry) pair currently associated with a key. -/
def entryLookup (st : CacheState) (key : String) : Option (String × ℤ) :=
  (st.entries.find? (fun e => e.1 == key)).map (fun e => e.2)

/-- A read at time `t`: an entry whose expiry has passed is not served
(Redis deletes a key once its TTL has elapsed, so reading it is a miss). -/
def redis_get (st : CacheState) (t : ℤ) (key : String) : Option String :=
  match st.entries.find? (fun e => e.1 == key) with
  | some e => if t < e.2.2 then some e.2.1 else none
  | none => none

/-- The cache with no entries. -/
def emptyCache : CacheState := ⟨[]⟩

/-- The `output_files` dict of `cache_analysis_results` (lines 323-328). -/
def analysis_output_files : List (String × String) :=
  [("comuna_counts", "/output/incidents_by_comuna/part-r-00000"),
   ("type_counts", "/output/incidents_by_type/part-r-00000"),
   ("hourly_counts", "/output/incidents_by_hour/part-r-00000"),
   ("hotspots", "/output/traffic_hotspots/part-r-00000")]

/-- `TrafficDataProcessor.cache_analysis_results` (lines 321-351):
for each named result file that exists, store its content under
`analysis:<key>` with a 3600 s TTL; then store `analysis:last_update`
(the `datetime.now().isoformat()` payload is abstracted to `toString now`)
with the same TTL.  `fileContent` gives each path's content, `none`
modelling a missing file (skipped, tolerated per key). -/
def cache_analysis_results (fileContent : String → Option String) (st : CacheState)
    (now : ℤ) : CacheState :=
  let st1 := analysis_output_files.foldl
    (fun s kv =>
      match fileContent kv.2 with
      | some content => redis_setex s now ("analysis:" ++ kv.1) 3600 content
      | none => s) st
  redis_setex st1 now "analysis:last_update" 3600 (toString now)

/-- The cache writes of one successful run: `cache_analysis_results`
(pipeline step 4, line 456) followed by
`setex("processing:last_report", 3600, report)` (lines 469-473). -/
def cache_after_run (fileContent : String → Option String) (st : CacheState) (now : ℤ)
    (report : String) : CacheState :=
  redis_setex (cache_analysis_results fileContent st now) now "processing:last_report" 3600 report

/-- The integer fields of the `ProcessingMetrics` dataclass (lines 22-29);
the wall-clock `processing_time` and `timestamp` fields are outside the
embedding. -/
structure ProcessingMetrics where
  total_records : ℕ
  filtered_records : ℕ
  errors_count : ℕ
deriving DecidableEq

/-- How one invocation of `process_data_pipeline` (lines 428-479) ends. -/
inductive RunOutcome where
  | noData
  | exportFailed
  | pigFailed
  | completed (metrics : ProcessingMetrics)
deriving DecidableEq

/-- `TrafficDataProcessor.process_data_pipeline` (lines 428-479) as the
sequence of stage decisions it makes: `batch` is the fetched unprocessed
set, `processedRows` the `processed = TRUE` rows seen by the exporter, and
`pigOk` the external engine's exit status.  A report (with
`errors_count=0`, line 463) is generated and cached only on the `completed`
path. -/
def process_data_pipeline (batch : List Incident) (now : ℤ)
    (processedRows : List CanonicalIncident) (pigOk : Bool) : RunOutcome :=
  let res := filter_and_clean_data batch now
  let filtered_records := res.2.1
  if filtered_records = 0 then RunOutcome.noData
  else
    let csv_path := export_for_pig_processing processedRows
    if csv_path = "" then RunOutcome.exportFailed
    else if ¬ pigOk then RunOutcome.pigFailed
    else RunOutcome.completed ⟨res.1, filtered_records, 0⟩

/-- Whether a run outcome reaches the report-caching step (lines 467-473). -/
def report_cached : RunOutcome → Bool
  | RunOutcome.completed _ => true
  | _ => false

/-! ### Concrete records used to instantiate the theorems -/

/-- A well-formed raw incident, 100 s old at validation time `1000000`. -/
def incA : Incident :=
  { incident_id := some "A", incident_type := some "accidente",
    description := some "choque en ruta", latitude := some (-33.5),
    longitude := some (-70.6), street := some "Alameda", city := some "Santiago",
    comuna := some "santiago", severity := some 5,
    timestamp := some (some 999900), source := some "waze" }

/-- A duplicate of `incA`: same type, 0.0005 degrees and 100 s away, and
100 s earlier, so it becomes the cluster representative. -/
def incB : Incident :=
  { incA with
    incident_id := some "B", latitude := some (-33.5005),
    timestamp := some (some 999800) }

/-- Same event as `incA` reported under another id at the same timestamp. -/
def incX : Incident := { incA with incident_id := some "X" }

/-- Same event as `incA` reported under another id at the same timestamp. -/
def incY : Incident := { incA with incident_id := some "Y" }

/-- A record whose timestamp is 7 days and 1 hour before validation time
`1000000` (age 608400 s, `timedelta.days = 7`). -/
def incOld : Incident := { incA with timestamp := some (some 391600) }

/-- A record carrying the raw severity 47. -/
def inc47 : Incident := { incA with severity := some 47 }

/-- A record with no id: `incident['incident_id']` raises inside
`homogenize_incidents` and the record is silently dropped. -/
def incNoId : Incident := { incA with incident_id := none }

/-- The earliest report of one event (the spec's `A(t=0)`). -/
def c2A : Incident := { incA with timestamp := some (some 999000) }

/-- A duplicate of `c2A`, 100 s later (the spec's `B(t=100s)`). -/
def c2B : Incident :=
  { incA with incident_id := some "B2", timestamp := some (some 999100) }

/-- A duplicate of `c2A`, 50 s later (the spec's `C(t=50s)`). -/
def c2C : Incident :=
  { incA with incident_id := some "C2", timestamp := some (some 999050) }

/-- First record of the exact-threshold pair. -/
def c4a : Incident :=
  { incA with incident_id := some "D1", timestamp := some (some 999700) }

/-- Second record of the exact-threshold pair: exactly 0.001 degrees away in
both coordinates and exactly 300 s away in time. -/
def c4b : Incident :=
  { incA with
    incident_id := some "D2", latitude := some (-33.501),
    longitude := some (-70.601), timestamp := some (some 999400) }

/-- One already-processed row, as seen by the exporter. -/
def canonRow : CanonicalIncident :=
  ⟨"A", "ACCIDENTE", "d", -33.5, -70.6, "", "", "", 5, some 999900, "waze"⟩

/-- The spec's export round-trip test string: `He said, "slow down"`. -/
def descC3 : List Char := "He said, \"slow down\"".toList

/-- An analytics-result file layout where only the comuna-counts artifact
exists. -/
def fcW : String → Option String :=
  fun p => if p = "/output/incidents_by_comuna/part-r-00000" then some "datos" else none

end Traffic

attribute [local semireducible] Rat.ofScientific Rat.add Rat.mul Rat.inv Rat.sub

namespace Traffic

/-! ### Helper lemmas -/

theorem foldl_dedupAccStep_mem (L : List Incident) :
    ∀ (acc : List Incident) (x : Incident), x ∈ L.foldl dedupAccStep acc → x ∈ acc ∨ x ∈ L := by
  induction L with
  | nil => intro acc x h; exact Or.inl h
  | cons a L ih =>
    intro acc x h
    rcases ih (dedupAccStep acc a) x h with h₂ | h₂
    · unfold dedupAccStep at h₂
      split at h₂
      · exact Or.inl h₂
      · rcases List.mem_append.mp h₂ with h₃ | h₃
        · exact Or.inl h₃
        · exact Or.inr (List.mem_cons.mpr (Or.inl (List.mem_singleton.mp h₃)))
    · exact Or.inr (List.mem_cons.mpr (Or.inr h₂))

theorem sortByTimestamp_perm (l : List Incident) : (sortByTimestamp l).Perm l :=
  List.perm_insertionSort tsLE l

theorem mem_of_mem_remove_duplicates {l : List Incident} {x : Incident}
    (h : x ∈ remove_duplicates l) : x ∈ l := by
  rcases foldl_dedupAccStep_mem (sortByTimestamp l) [] x h with h₂ | h₂
  · cases h₂
  · exact (sortByTimestamp_perm l).mem_iff.mp h₂

theorem placeholder_description_ne (t : String) : "Incidente de tipo " ++ t ≠ "" := by
  intro h
  have hlen := congrArg String.length h
  rw [String.length_append] at hlen
  have h18 : String.length "Incidente de tipo " = 18 := rfl
  have h0 : String.length "" = 0 := rfl
  rw [h18, h0] at hlen
  omega

theorem homogenize_one_eq_some {i : Incident} {iid : String} {la lo : ℚ} {ts : Option ℤ}
    (hid : i.incident_id = some iid) (hla : i.latitude = some la)
    (hlo : i.longitude = some lo) (hts : i.timestamp = some ts) :
    ∃ c, homogenize_one i = some c ∧ c.incident_id = iid ∧ c.description ≠ "" := by
  unfold homogenize_one
  rw [hid, hla, hlo, hts]
  refine ⟨_, rfl, rfl, ?_⟩
  dsimp only
  split
  · exact placeholder_description_ne _
  · next h => exact h

theorem is_valid_fields {now : ℤ} {i : Incident} (h : is_valid_incident now i = true) :
    (∃ s, i.incident_id = some s) ∧ (∃ q, i.latitude = some q) ∧
    (∃ q, i.longitude = some q) ∧ (∃ ts, i.timestamp = some ts) := by
  unfold is_valid_incident at h
  simp only [Bool.and_eq_true] at h
  refine ⟨?_, ?_, ?_, ?_⟩
  · rcases hx : i.incident_id with _ | s
    · rw [hx] at h; simp [truthyStr] at h
    · exact ⟨s, rfl⟩
  · rcases hx : i.latitude with _ | q
    · rw [hx] at h; simp [truthyNum] at h
    · exact ⟨q, rfl⟩
  · rcases hx : i.longitude with _ | q
    · rw [hx] at h; simp [truthyNum] at h
    · exact ⟨q, rfl⟩
  · rcases hx : i.timestamp with _ | ts
    · rw [hx] at h; simp [truthyTs] at h
    · exact ⟨ts, rfl⟩

theorem filterMap_map_id_of_valid {now : ℤ} :
    ∀ (l : List Incident), (∀ x ∈ l, is_valid_incident now x = true) →
      (l.filterMap homogenize_one).map (·.incident_id) =
        l.map (fun i => i.incident_id.getD "") := by
  intro l
  induction l with
  | nil => intro _; rfl
  | cons a l ih =>
    intro hall
    obtain ⟨⟨iid, hid⟩, ⟨la, hla⟩, ⟨lo, hlo⟩, ⟨ts, hts⟩⟩ :=
      is_valid_fields (hall a (List.mem_cons_self a l))
    obtain ⟨c, hc, hcid, _⟩ := homogenize_one_eq_some hid hla hlo hts
    rw [List.filterMap_cons, hc]
    simp only [List.map_cons, hcid, hid]
    rw [ih (fun x hx => hall x (List.mem_cons_of_mem a hx))]
    rfl

theorem sorted_tsLE_sortByTimestamp (l : List Incident) :
    List.Sorted tsLE (sortByTimestamp l) :=
  List.sorted_insertionSort tsLE l

theorem sorted_tsLT_of_distinct {l : List Incident}
    (hs : List.Sorted tsLE l) (hd : l.Pairwise (fun a b => tsKey a ≠ tsKey b)) :
    List.Sorted tsLT l :=
  (List.Pairwise.and hs hd).imp (fun h => lt_of_le_of_ne h.1 h.2)

theorem sortByTimestamp_eq_of_perm {l₁ l₂ : List Incident} (hp : l₁.Perm l₂)
    (hd : l₁.Pairwise (fun a b => tsKey a ≠ tsKey b)) :
    sortByTimestamp l₁ = sortByTimestamp l₂ := by
  have hsym : ∀ {x y : Incident}, tsKey x ≠ tsKey y → tsKey y ≠ tsKey x :=
    fun h e => h e.symm
  have hd₁ : (sortByTimestamp l₁).Pairwise (fun a b => tsKey a ≠ tsKey b) :=
    (sortByTimestamp_perm l₁).symm.pairwise hd hsym
  have hd₂ : (sortByTimestamp l₂).Pairwise (fun a b => tsKey a ≠ tsKey b) :=
    ((hp.trans (sortByTimestamp_perm l₂).symm)).pairwise hd hsym
  exact List.eq_of_perm_of_sorted
    ((sortByTimestamp_perm l₁).trans (hp.trans (sortByTimestamp_perm l₂).symm))
    (sorted_tsLT_of_distinct (sorted_tsLE_sortByTimestamp l₁) hd₁)
    (sorted_tsLT_of_distinct (sorted_tsLE_sortByTimestamp l₂) hd₂)

/-! ### Claim C1 -/

/-- C1, counterexample: `incA` is fetched in the batch `[incA, incB]` and
passes validation, but `filter_and_clean_data` does not flag it processed:
only the deduplication survivor `incB` is marked, so `incA` is fetched again
as unprocessed by the next run.  This refutes the claim that every validated
record — including those suppressed as duplicates — is flagged
`processed=true`. -/
theorem c1_validated_duplicate_not_marked :
    is_valid_incident 1000000 incA = true ∧ incA ∈ [incA, incB] ∧
    incA.incident_id = some "A" ∧
    "A" ∉ (filter_and_clean_data [incA, incB] 1000000).2.2 := by
  refine ⟨by decide, List.mem_cons_self _ _, by decide, by decide⟩

/-- C1, amended: one run of the filter/clean stage flags `processed=true`
exactly the records admitted as cluster representatives by deduplication
(all of which survive homogenization); validated records suppressed as
duplicates are not flagged, and remain fetchable as unprocessed by later
runs. -/
theorem c1_marked_ids_are_dedup_survivors (batch : List Incident) (now : ℤ) :
    (filter_and_clean_data batch now).2.2 =
      (remove_duplicates (batch.filter (is_valid_incident now))).map
        (fun i => i.incident_id.getD "") ∧
    ∀ i ∈ remove_duplicates (batch.filter (is_valid_incident now)),
      i ∈ batch ∧ is_valid_incident now i = true := by
  constructor
  · show (homogenize_incidents (remove_duplicates (batch.filter (is_valid_incident now)))).map
        (·.incident_id) = _
    unfold homogenize_incidents
    exact filterMap_map_id_of_valid _ (fun x hx =>
      (List.mem_filter.mp (mem_of_mem_remove_duplicates hx)).2)
  · intro i hi
    have hmem := mem_of_mem_remove_duplicates hi
    exact ⟨(List.mem_filter.mp hmem).1, (List.mem_filter.mp hmem).2⟩

/-- C1, witness: the amended statement evaluated on the concrete batch
`[incA, incB]`. -/
theorem c1_witness :
    (filter_and_clean_data [incA, incB] 1000000).2.2 =
      (remove_duplicates ([incA, incB].filter (is_valid_incident 1000000))).map
        (fun i => i.incident_id.getD "") :=
  (c1_marked_ids_are_dedup_survivors [incA, incB] 1000000).1

/-! ### Claim C2 -/

/-- C2, counterexample: `incX` and `incY` describe the same event at the
same timestamp.  `[incY, incX]` is a permutation of `[incX, incY]`, yet the
canonical sets differ: the stable sort keeps the fetch order on the
timestamp tie, so whichever record comes first is admitted.  This refutes
order independence for every permutation. -/
theorem c2_tie_breaks_order_independence :
    ([incY, incX]).Perm [incX, incY] ∧ incX ≠ incY ∧
    remove_duplicates [incX, incY] = [incX] ∧
    remove_duplicates [incY, incX] = [incY] := by
  refine ⟨by decide, by decide, by decide, by decide⟩

/-- C2, amended: `remove_duplicates` is a deterministic function of the
batch, and for batches whose timestamps are pairwise distinct it is
independent of input order: every permutation yields the same canonical
list and a permuted (hence equal as a multiset) dropped set.  Within such a
batch the earliest-timestamp record of a cluster is the admitted canonical
(instantiated on the spec's A/B/C example by the witness).  When two
records share a timestamp the admitted canonical depends on fetch order. -/
theorem c2_dedup_order_independent_of_distinct_ts (l₁ l₂ : List Incident)
    (hp : l₁.Perm l₂) (hd : l₁.Pairwise (fun a b => tsKey a ≠ tsKey b)) :
    remove_duplicates l₁ = remove_duplicates l₂ ∧
    (l₁.filter (fun x => decide (x ∉ remove_duplicates l₁))).Perm
      (l₂.filter (fun x => decide (x ∉ remove_duplicates l₂))) := by
  have hmain : remove_duplicates l₁ = remove_duplicates l₂ := by
    unfold remove_duplicates
    rw [sortByTimestamp_eq_of_perm hp hd]
  refine ⟨hmain, ?_⟩
  rw [← hmain]
  exact hp.filter _

/-- C2, witness: the spec's example — A(t=999000), B(t=999100, duplicate of
A), C(t=999050, duplicate of A) — keeps A as the only canonical under a
reordering of the batch. -/
theorem c2_witness :
    remove_duplicates [c2B, c2A, c2C] = remove_duplicates [c2A, c2B, c2C] ∧
    remove_duplicates [c2A, c2B, c2C] = [c2A] :=
  ⟨(c2_dedup_order_independent_of_distinct_ts [c2B, c2A, c2C] [c2A, c2B, c2C]
      (by decide) (by decide)).1,
   by decide⟩

/-! ### Claim C3 -/

/-- C3: the claimed round-trip fails.  The exporter pre-doubles quote
characters itself and `to_csv` escapes them again, so parsing the exported
field yields the description with every quote doubled, not the original:
for `He said, "slow down"` the parse returns `He said, ""slow down""`.
(For the claim to hold, `csvReadField (export_description_field d) = d`
would be needed.) -/
theorem c3_export_double_escapes :
    csvReadField (export_description_field descC3) = doubleQuotes descC3 ∧
    csvReadField (export_description_field descC3) ≠ descC3 := by
  refine ⟨by decide, by decide⟩

/-! ### Claim C4 -/

/-- C4: two validated records are duplicates exactly when their raw
`incident_type` values are identical, both coordinate differences are at
most `D = 0.001` degrees and the timestamp difference is at most
`T = 300` s — inclusive at the thresholds, exclusive beyond them. -/
theorem c4_duplicate_iff (now : ℤ) (i1 i2 : Incident) (la1 lo1 la2 lo2 : ℚ) (t1 t2 : ℤ)
    (h1 : is_valid_incident now i1 = true) (h2 : is_valid_incident now i2 = true)
    (hla1 : i1.latitude = some la1) (hlo1 : i1.longitude = some lo1)
    (hla2 : i2.latitude = some la2) (hlo2 : i2.longitude = some lo2)
    (ht1 : i1.timestamp = some (some t1)) (ht2 : i2.timestamp = some (some t2)) :
    are_incidents_duplicate i1 i2 = true ↔
      (i1.incident_type = i2.incident_type ∧
       |la1 - la2| ≤ 0.001 ∧ |lo1 - lo2| ≤ 0.001 ∧ |t1 - t2| ≤ 300) := by
  have hred : are_incidents_duplicate i1 i2 =
      if i1.incident_type ≠ i2.incident_type then false
      else if |la1 - la2| > (0.001 : ℚ) ∨ |lo1 - lo2| > (0.001 : ℚ) then false
      else decide (|t1 - t2| ≤ 300) := by
    unfold are_incidents_duplicate duplicate_distance_threshold duplicate_time_threshold
    rw [hla1, hlo1, hla2, hlo2, ht1, ht2]
    rfl
  rw [hred]
  by_cases hty : i1.incident_type = i2.incident_type
  · rw [if_neg (not_not_intro hty)]
    by_cases hsp : |la1 - la2| > (0.001 : ℚ) ∨ |lo1 - lo2| > (0.001 : ℚ)
    · rw [if_pos hsp]
      constructor
      · intro h; cases h
      · rintro ⟨_, hA, hB, _⟩
        rcases hsp with hsp | hsp
        · exact absurd hA (not_le_of_lt hsp)
        · exact absurd hB (not_le_of_lt hsp)
    · rw [if_neg hsp]
      rw [not_or] at hsp
      simp only [decide_eq_true_eq]
      constructor
      · intro h
        exact ⟨hty, le_of_not_lt hsp.1, le_of_not_lt hsp.2, h⟩
      · rintro ⟨_, _, _, h⟩
        exact h
  · rw [if_pos hty]
    constructor
    · intro h; cases h
    · rintro ⟨h, _, _, _⟩
      exact absurd h hty

/-- C4, witness: `c4a` and `c4b` are both valid at time 1000000, sit exactly
0.001 degrees apart in latitude and longitude and exactly 300 s apart in
time, and are classified as duplicates. -/
theorem c4_witness : are_incidents_duplicate c4a c4b = true :=
  (c4_duplicate_iff 1000000 c4a c4b (-33.5) (-70.6) (-33.501) (-70.601) 999700 999400
      (by decide) (by decide) rfl rfl rfl rfl rfl rfl).mpr
    ⟨rfl, by decide, by decide, by decide⟩

/-! ### Claim C5 -/

/-- C5, counterexample: `incOld` is 7 days and 1 hour old at validation time
(608400 s > 7 * 86400 s), i.e. older than the 7-day freshness window, yet
`is_valid_incident` accepts it: the source tests `timedelta.days > 7`, which
floors the age to whole days, so only records at least 8 whole days old are
rejected.  This refutes the claim's "older than the 7-day freshness window"
rejection condition. -/
theorem c5_stale_record_accepted :
    is_valid_incident 1000000 incOld = true ∧
    incOld.timestamp = some (some 391600) ∧ (1000000 : ℤ) - 391600 > 7 * 86400 := by
  refine ⟨by decide, rfl, by decide⟩

/-- C5, amended: `validate(raw)` returns true exactly when all of the
following hold (and is a pure predicate): each of {id, type, latitude,
longitude} is present and non-empty (for the coordinates: non-zero, the
source's truthiness test), the coordinates lie in the configured bounding
box, the trimmed description has at least 3 characters, and the timestamp
parses to an instant `t` whose age floored to whole days is at most 7
(`floor((now - t) / 86400) ≤ 7`): records between 7 and 8 days old are
still accepted, and malformed timestamps fail closed. -/
theorem c5_valid_iff (now : ℤ) (i : Incident) :
    is_valid_incident now i = true ↔
      ((∃ s, i.incident_id = some s ∧ s ≠ "") ∧
       (∃ s, i.incident_type = some s ∧ s ≠ "") ∧
       (∃ q, i.latitude = some q ∧ q ≠ 0) ∧
       (∃ q, i.longitude = some q ∧ q ≠ 0) ∧
       (-33.8 ≤ i.latitude.getD 0 ∧ i.latitude.getD 0 ≤ -33.2) ∧
       (-71.0 ≤ i.longitude.getD 0 ∧ i.longitude.getD 0 ≤ -70.3) ∧
       3 ≤ (pyStrip (i.description.getD "")).length ∧
       (∃ t, i.timestamp = some (some t) ∧ (now - t).fdiv 86400 ≤ 7)) := by
  obtain ⟨iid, ity, desc, la, lo, street, city, comuna, sev, ts, src⟩ := i
  rcases iid with _ | iid <;> rcases ity with _ | ity <;> rcases la with _ | la <;>
    rcases lo with _ | lo <;> rcases ts with _ | (_ | t) <;>
    simp [is_valid_incident, truthyStr, truthyNum, truthyTs, bbox_check, freshness_check,
      and_assoc]

/-- C5, witness: the amended characterization applied to the concrete valid
record `incA` at validation time 1000000. -/
theorem c5_witness : is_valid_incident 1000000 incA = true :=
  (c5_valid_iff 1000000 incA).mpr
    ⟨⟨"A", rfl, by decide⟩, ⟨"accidente", rfl, by decide⟩,
     ⟨-33.5, rfl, by decide⟩, ⟨-70.6, rfl, by decide⟩,
     by constructor <;> decide, by constructor <;> decide, by decide,
     ⟨999900, rfl, by decide⟩⟩

/-! ### Claim C6 -/

/-- C6: normalization of the severity field — a raw value above 10 is
integer-divided by 10 and capped at 10, any other value passes through
unchanged. -/
theorem c6_severity_rescale (i : Incident) (s : ℤ) (c : CanonicalIncident)
    (hs : i.severity = some s) (hc : homogenize_one i = some c) :
    (10 < s → c.severity = min (s.fdiv 10) 10) ∧ (s ≤ 10 → c.severity = s) := by
  obtain ⟨iid, ity, desc, la, lo, street, city, comuna, sev, ts, src⟩ := i
  rcases iid with _ | iid
  · simp [homogenize_one] at hc
  rcases la with _ | la
  · simp [homogenize_one] at hc
  rcases lo with _ | lo
  · simp [homogenize_one] at hc
  rcases ts with _ | ts
  · simp [homogenize_one] at hc
  have hsev : sev = some s := hs
  subst hsev
  simp only [homogenize_one] at hc
  rw [Option.some_inj] at hc
  subst hc
  constructor
  · intro h10
    show (if s > 10 then min (s.fdiv 10) 10 else s) = min (s.fdiv 10) 10
    rw [if_pos h10]
  · intro h10
    show (if s > 10 then min (s.fdiv 10) 10 else s) = s
    rw [if_neg (not_lt_of_le h10)]

/-- The canonical record `homogenize_one` produces for `inc47`. -/
def canon47 : CanonicalIncident :=
  ⟨"A", "ACCIDENTE", "choque en ruta", -33.5, -70.6, "Alameda", "Santiago", "Santiago",
   4, some 999900, "waze"⟩

/-- C6, witness: raw severity 47 normalizes to `min (47 / 10) 10 = 4`. -/
theorem c6_witness :
    homogenize_one inc47 = some canon47 ∧
    canon47.severity = min ((47 : ℤ).fdiv 10) 10 ∧ canon47.severity = 4 :=
  ⟨by decide,
   (c6_severity_rescale inc47 47 canon47 rfl (by decide)).1 (by decide),
   by decide⟩

/-! ### Claim C7 -/

/-- C7, counterexample: `incNoId` lacks an id, so `homogenize_incidents`
raises on `incident['incident_id']` and silently drops it: the output has
fewer records than the input, refuting totality over records with missing
fields. -/
theorem c7_missing_field_record_dropped :
    (homogenize_incidents [incNoId]).length ≠ [incNoId].length := by decide

/-- C7, amended: on records that carry id, latitude, longitude and
timestamp keys (every validated record does), the Normalizer never fails:
it yields exactly one `CanonicalIncident` per input record — so the output
count equals the input count — and every output has a non-empty description
(a blank one is replaced by a placeholder naming the normalized type).
Records missing one of those keys raise and are silently dropped instead. -/
theorem c7_total_on_keyed_records (l : List Incident)
    (h : ∀ i ∈ l, (∃ v, i.incident_id = some v) ∧ (∃ v, i.latitude = some v) ∧
        (∃ v, i.longitude = some v) ∧ (∃ v, i.timestamp = some v)) :
    (homogenize_incidents l).length = l.length ∧
    ∀ c ∈ homogenize_incidents l, c.description ≠ "" := by
  induction l with
  | nil => exact ⟨rfl, by intro c hc; cases hc⟩
  | cons a l ih =>
    obtain ⟨⟨iid, hid⟩, ⟨la, hla⟩, ⟨lo, hlo⟩, ⟨ts, hts⟩⟩ := h a (List.mem_cons_self a l)
    obtain ⟨c, hc, _, hcd⟩ := homogenize_one_eq_some hid hla hlo hts
    obtain ⟨ih1, ih2⟩ := ih (fun x hx => h x (List.mem_cons_of_mem a hx))
    unfold homogenize_incidents at ih1 ih2 ⊢
    rw [List.filterMap_cons, hc]
    constructor
    · rw [List.length_cons, List.length_cons, ih1]
    · intro d hd
      rcases List.mem_cons.mp hd with rfl | hd
      · exact hcd
      · exact ih2 d hd

/-- C7, witness: the amended count-preservation on the singleton batch
`[incA]`. -/
theorem c7_witness : (homogenize_incidents [incA]).length = [incA].length :=
  (c7_total_on_keyed_records [incA] (fun i hi => by
    rw [List.mem_singleton] at hi
    subst hi
    exact ⟨⟨"A", rfl⟩, ⟨-33.5, rfl⟩, ⟨-70.6, rfl⟩, ⟨some 999900, rfl⟩⟩)).1

/-! ### Claim C8 -/

/-- C8, counterexample: with a non-empty valid batch but zero processed
rows, the run ends at the export stage and no `ProcessingRun` report is
produced or cached (the orchestrator logs the empty export as an error and
returns before the report step), refuting the claimed no-op report. -/
theorem c8_empty_export_aborts_without_report :
    process_data_pipeline [incA] 1000000 [] true = RunOutcome.exportFailed ∧
    report_cached RunOutcome.exportFailed = false :=
  ⟨by decide, rfl⟩

/-- C8, amended: with zero processed rows the exporter returns no artifact
(the empty path), and the run ends early with no report: the orchestrator
treats the empty export exactly like an export failure (`return` after an
error log), and never reaches the report-construction and report-caching
steps. -/
theorem c8_zero_rows_no_artifact_no_report (batch : List Incident) (now : ℤ) (pigOk : Bool) :
    export_for_pig_processing [] = "" ∧
    report_cached (process_data_pipeline batch now [] pigOk) = false := by
  refine ⟨rfl, ?_⟩
  simp only [process_data_pipeline]
  split
  · rfl
  · rfl

/-! ### Claim C9 -/

theorem foldl_cache_entries (fc : String → Option String) (now : ℤ) :
    ∀ (ps : List (String × String)) (st : CacheState),
      ∃ L, (ps.foldl (fun s kv =>
          match fc kv.2 with
          | some content => redis_setex s now ("analysis:" ++ kv.1) 3600 content
          | none => s) st).entries = L ++ st.entries ∧ ∀ e ∈ L, e.2.2 = now + 3600 := by
  intro ps
  induction ps with
  | nil =>
    intro st
    exact ⟨[], rfl, by intro e he; cases he⟩
  | cons p ps ih =>
    intro st
    rw [List.foldl_cons]
    rcases hfc : fc p.2 with _ | content
    · exact ih st
    · obtain ⟨L, hL, hLe⟩ := ih (redis_setex st now ("analysis:" ++ p.1) 3600 content)
      refine ⟨L ++ [("analysis:" ++ p.1, content, now + 3600)], ?_, ?_⟩
      · show (List.foldl _ (redis_setex st now ("analysis:" ++ p.1) 3600 content) ps).entries = _
        rw [hL, List.append_assoc]
        rfl
      · intro e he
        rcases List.mem_append.mp he with he | he
        · exact hLe e he
        · rw [List.mem_singleton.mp he]

theorem cache_analysis_results_entries (fc : String → Option String) (st : CacheState)
    (now : ℤ) :
    ∃ L, (cache_analysis_results fc st now).entries = L ++ st.entries ∧
      ∀ e ∈ L, e.2.2 = now + 3600 := by
  obtain ⟨L, hL, hLe⟩ := foldl_cache_entries fc now analysis_output_files st
  refine ⟨("analysis:last_update", toString now, now + 3600) :: L, ?_, ?_⟩
  · show ("analysis:last_update", toString now, now + 3600) ::
      (analysis_output_files.foldl (fun s kv =>
        match fc kv.2 with
        | some content => redis_setex s now ("analysis:" ++ kv.1) 3600 content
        | none => s) st).entries = _
    rw [hL]
    rfl
  · intro e he
    rcases List.mem_cons.mp he with rfl | he
    · rfl
    · exact hLe e he

theorem cache_after_run_entries (fc : String → Option String) (st : CacheState) (now : ℤ)
    (rep : String) :
    ∃ L, (cache_after_run fc st now rep).entries = L ++ st.entries ∧
      ∀ e ∈ L, e.2.2 = now + 3600 := by
  obtain ⟨L, hL, hLe⟩ := cache_analysis_results_entries fc st now
  refine ⟨("processing:last_report", rep, now + 3600) :: L, ?_, ?_⟩
  · show ("processing:last_report", rep, now + 3600) ::
      (cache_analysis_results fc st now).entries = _
    rw [hL]
    rfl
  · intro e he
    rcases List.mem_cons.mp he with rfl | he
    · rfl
    · exact hLe e he

/-- C9: every cache entry the run writes — the `analysis:*` result keys and
the `processing:last_report` key — is stored with expiry `now + 3600`
(TTL 3600 s), and once that expiry is reached a read of the key behaves
exactly like a read of an absent key: expired entries are never served. -/
theorem c9_ttl_and_no_stale_read (fc : String → Option String) (st : CacheState) (now : ℤ)
    (rep : String) (k p : String) (e : ℤ)
    (hlook : entryLookup (cache_after_run fc st now rep) k = some (p, e))
    (hnew : entryLookup st k ≠ some (p, e)) :
    e = now + 3600 ∧
    ∀ t, now + 3600 ≤ t →
      redis_get (cache_after_run fc st now rep) t k = redis_get emptyCache t k := by
  obtain ⟨L, hL, hLe⟩ := cache_after_run_entries fc st now rep
  unfold entryLookup at hlook hnew
  rw [hL, List.find?_append] at hlook
  rcases hfind : L.find? (fun en => en.1 == k) with _ | en
  · rw [hfind] at hlook
    simp only [Option.none_or] at hlook
    exact absurd hlook hnew
  · rw [hfind] at hlook
    simp only [Option.or_some, Option.map_some'] at hlook
    have hen : en.2 = (p, e) := Option.some_inj.mp hlook
    have hexp : en.2.2 = now + 3600 := hLe en (List.mem_of_find?_eq_some hfind)
    have he : e = now + 3600 := by rw [hen] at hexp; exact hexp
    refine ⟨he, ?_⟩
    intro t ht
    unfold redis_get
    rw [hL, List.find?_append, hfind]
    simp only [Option.or_some]
    rw [if_neg]
    · rfl
    · rw [hexp]
      omega

/-- C9, witness: with only the comuna-counts artifact present, the run
stores it under `analysis:comuna_counts` with expiry `0 + 3600`, and a read
at time 3600 is already a miss, identical to reading an empty cache. -/
theorem c9_witness :
    entryLookup (cache_after_run fcW emptyCache 0 "rep") "analysis:comuna_counts" =
      some ("datos", 3600) ∧
    (3600 : ℤ) = 0 + 3600 ∧
    redis_get (cache_after_run fcW emptyCache 0 "rep") 3600 "analysis:comuna_counts" =
      redis_get emptyCache 3600 "analysis:comuna_counts" :=
  ⟨by decide,
   (c9_ttl_and_no_stale_read fcW emptyCache 0 "rep" "analysis:comuna_counts" "datos" 3600
      (by decide) (by decide)).1,
   (c9_ttl_and_no_stale_read fcW emptyCache 0 "rep" "analysis:comuna_counts" "datos" 3600
      (by decide) (by decide)).2 3600 (by omega)⟩

/-! ### Claim C10 -/

/-- C10: whenever the pipeline completes and produces a report, that
report's `errors_count` is exactly 0 — the value is hard-coded at report
construction, so per-record homogenization failures (silently dropped
records) are never reflected in it. -/
theorem c10_errors_count_always_zero (batch : List Incident) (now : ℤ)
    (rows : List CanonicalIncident) (pigOk : Bool) (m : ProcessingMetrics)
    (h : process_data_pipeline batch now rows pigOk = RunOutcome.completed m) :
    m.errors_count = 0 := by
  simp only [process_data_pipeline] at h
  split at h
  · cases h
  · split at h
    · cases h
    · split at h
      · cases h
      · cases h
        rfl

/-- C10, witness: a concrete completed run reports `errors_count = 0`. -/
theorem c10_witness :
    process_data_pipeline [incA] 1000000 [canonRow] true =
      RunOutcome.completed ⟨1, 1, 0⟩ ∧
    (⟨1, 1, 0⟩ : ProcessingMetrics).errors_count = 0 :=
  ⟨by decide,
   c10_errors_count_always_zero [incA] 1000000 [canonRow] true ⟨1, 1, 0⟩ (by decide)⟩

end Traffic
